import Mathlib

/-!
Shallow embedding of the `auth-service` repository: an Express application
(`src/app.ts`) with one root route and a global error handler, the server
bootstrap (`src/server.ts`), and the arithmetic helper exercised by
`app.test.ts`.
-/

/-- Log severities exposed by the logger collaborator (`warn`, `error`, `info`). -/
inductive Severity where
  | warn
  | error
  | info
deriving DecidableEq

/-- A log line: severity together with the message text. -/
abbrev LogLine := Severity × String

/-- An incoming HTTP request, as visible to the route handlers. -/
structure Request where
  method : String
  path : String
  headers : List (String × String)
  query : String
  body : String
deriving DecidableEq

/-- One entry of the error envelope serialized by the global error handler:
`{ type, msg, path, location }`. -/
structure ErrorEntry where
  type : String
  msg : String
  path : String
  location : String
deriving DecidableEq

/-- A response body: either plain text (`res.send`) or the JSON error
envelope `{ error: [...] }` (`res.json`). -/
inductive Body where
  | text (s : String)
  | errorJson (errors : List ErrorEntry)
deriving DecidableEq

/-- An HTTP response: status code and body. The status is an integer because
the source passes `err.statusCode` through without validation. -/
structure Response where
  status : Int
  body : Body
deriving DecidableEq

/-- The error-shaped value consumed by the global error handler (`HttpError`):
an optionally-present numeric `statusCode`, a `name` and a `message`.
`statusCode = none` models an absent field; `some 0` is the falsy number. -/
structure HttpError where
  statusCode : Option Int
  name : String
  message : String
deriving DecidableEq

/-- JavaScript truthiness of the optional numeric `statusCode`:
absent (`undefined`) and `0` are falsy, every other number is truthy. -/
def statusTruthy : Option Int → Bool
  | none => false
  | some v => v != 0

/-- `err.statusCode || 500` from `src/app.ts`: the error's status code when
truthy, otherwise the default 500. -/
def defaultedStatus (err : HttpError) : Int :=
  match err.statusCode with
  | none => 500
  | some v => if v != 0 then v else 500

/-- What a handler invocation produced: log lines written, responses written,
and whether `next` was invoked to forward the error onward. -/
structure HandlerResult where
  logs : List LogLine
  responses : List Response
  nextCalled : Bool
deriving DecidableEq

/-- The root route handler from `src/app.ts`:
`app.get('/', (req, res) => { res.send('Welcome to auth service') })`.
`res.send` on a fresh response uses the default status 200. -/
def rootRoute (_req : Request) : Response :=
  { status := 200, body := Body.text "Welcome to auth service" }

/-- Request dispatch of the application object: the only registered route is
`GET /`; any other method/path combination is not handled by a route. -/
def appHandle (req : Request) : Option Response :=
  if req.method = "GET" && req.path = "/" then some (rootRoute req) else none

/-- The global error handler from `src/app.ts`: logs `err.message` at error
severity, computes `err.statusCode || 500`, and writes a single JSON response
`{ error: [{ type: err.name, msg: err.message, path: '', location: '' }] }`.
It never calls `next`. -/
def errorHandler (err : HttpError) : HandlerResult :=
  { logs := [(Severity.error, err.message)]
  , responses :=
      [ { status := defaultedStatus err
        , body := Body.errorJson
            [ { type := err.name
              , msg := err.message
              , path := ""
              , location := "" } ] } ]
  , nextCalled := false }

/-- Outcome of the single `app.listen` call attempted by the bootstrap:
either the listener binds, or `listen` throws an error (rendered here as the
error's string form, as printed by `console.error`). -/
inductive BindOutcome where
  | ok
  | failed (err : String)
deriving DecidableEq

/-- Observable effects of running the bootstrap: logger lines, console error
output, the process exit code if the process was terminated, and how many
times a listener bind was attempted. -/
structure BootstrapResult where
  logs : List LogLine
  consoleErrors : List String
  exitCode : Option Nat
  bindAttempts : Nat
deriving DecidableEq

/-- `startServer` from `src/server.ts`: one `try { app.listen(PORT, cb) }`.
On successful bind the callback logs three lines (warn, error, info) and
nothing else; on a thrown bind error the catch block does
`console.error(err); process.exit(1)`. There is no loop or retry: exactly
one bind attempt is made either way. -/
def startServer (outcome : BindOutcome) : BootstrapResult :=
  match outcome with
  | BindOutcome.ok =>
      { logs :=
          [ (Severity.warn, "testing logger warn")
          , (Severity.error, "testing logger error")
          , (Severity.info, "Server listening on port") ]
      , consoleErrors := []
      , exitCode := none
      , bindAttempts := 1 }
  | BindOutcome.failed e =>
      { logs := []
      , consoleErrors := [e]
      , exitCode := some 1
      , bindAttempts := 1 }

/-- Modelled from the spec: the helper addition function `sum` lives in
`src/utilis.ts`, which is not part of the given sources (only its caller in
`app.test.ts` is). The spec describes it as "a helper addition function"
with `sum(1, 2) === 3`. -/
def sum (a b : Int) : Int := a + b

/-- C1: every GET request to the root path is answered with status 200 and
the exact body "Welcome to auth service". -/
theorem get_root_ok (req : Request) (hm : req.method = "GET")
    (hp : req.path = "/") :
    appHandle req =
      some { status := 200, body := Body.text "Welcome to auth service" } := by
  simp [appHandle, rootRoute, hm, hp]

/-- Witness for C1 at a concrete GET / request. -/
theorem get_root_ok_witness :
    appHandle { method := "GET", path := "/", headers := [], query := ""
              , body := "" } =
      some { status := 200, body := Body.text "Welcome to auth service" } :=
  get_root_ok _ rfl rfl

/-- C2: the response status of the fallback error handler equals the error's
`statusCode` when that field is truthy, and 500 when it is absent or falsy. -/
theorem error_handler_status (err : HttpError) (r : Response)
    (hr : (errorHandler err).responses = [r]) :
    (∀ v : Int, err.statusCode = some v → v ≠ 0 → r.status = v) ∧
    ((err.statusCode = none ∨ err.statusCode = some 0) → r.status = 500) := by
  have hr' : r = (errorHandler err).responses.head (by simp [errorHandler]) := by
    simp [hr]
  subst hr'
  constructor
  · intro v hv hnz
    simp [errorHandler, defaultedStatus, hv, hnz]
  · rintro (hc | hc) <;> simp [errorHandler, defaultedStatus, hc]

/-- Witness for C2: truthy status 404 is used; absent status defaults to 500. -/
theorem error_handler_status_witness :
    (({ status := 404
      , body := Body.errorJson
          [{ type := "NotFoundError", msg := "nope", path := "", location := "" }] } :
        Response).status = 404) ∧
    (({ status := 500
      , body := Body.errorJson
          [{ type := "Error", msg := "boom", path := "", location := "" }] } :
        Response).status = 500) := by
  refine ⟨?_, ?_⟩
  · exact (error_handler_status
      { statusCode := some 404, name := "NotFoundError", message := "nope" }
      _ rfl).1 404 rfl (by decide)
  · exact (error_handler_status
      { statusCode := none, name := "Error", message := "boom" }
      _ rfl).2 (Or.inl rfl)

/-- C3: the fallback error handler's response body is the JSON envelope whose
`error` field holds exactly one object with `type = err.name`,
`msg = err.message`, and `path` and `location` hard-coded to "". -/
theorem error_handler_body (err : HttpError) (r : Response)
    (hr : (errorHandler err).responses = [r]) :
    r.body = Body.errorJson
      [{ type := err.name, msg := err.message, path := "", location := "" }] := by
  have hr' : r = (errorHandler err).responses.head (by simp [errorHandler]) := by
    simp [hr]
  subst hr'
  simp [errorHandler]

/-- Witness for C3 at a concrete error. -/
theorem error_handler_body_witness :
    ({ status := 401
     , body := Body.errorJson
         [{ type := "UnauthorizedError", msg := "denied", path := ""
          , location := "" }] } : Response).body =
      Body.errorJson
        [{ type := "UnauthorizedError", msg := "denied", path := ""
         , location := "" }] :=
  error_handler_body
    { statusCode := some 401, name := "UnauthorizedError", message := "denied" }
    _ rfl

/-- C4: on a bind failure at startup the bootstrap prints the error to the
console, terminates with exit code 1, and attempts no retry (exactly one
bind attempt, and no logger output). -/
theorem bind_failure_exits (e : String) :
    (startServer (BindOutcome.failed e)).consoleErrors = [e] ∧
    (startServer (BindOutcome.failed e)).exitCode = some 1 ∧
    (startServer (BindOutcome.failed e)).bindAttempts = 1 := by
  refine ⟨rfl, rfl, rfl⟩

/-- C5: on a successful bind the bootstrap emits exactly the three log lines
warn, error, info in that order, and takes no further action (no console
error, no exit). -/
theorem bind_success_logs :
    (startServer BindOutcome.ok).logs =
      [ (Severity.warn, "testing logger warn")
      , (Severity.error, "testing logger error")
      , (Severity.info, "Server listening on port") ] ∧
    (startServer BindOutcome.ok).consoleErrors = [] ∧
    (startServer BindOutcome.ok).exitCode = none := by
  refine ⟨rfl, rfl, rfl⟩

/-- C6: the fallback error handler writes exactly one log line, at error
severity, whose text is the error's message. -/
theorem error_handler_log (err : HttpError) :
    (errorHandler err).logs = [(Severity.error, err.message)] := rfl

/-- C7: the helper addition function applied to 1 and 2 returns 3. -/
theorem sum_one_two : sum 1 2 = 3 := rfl

/-- C8: the fallback error handler never forwards the error onward and always
writes exactly one HTTP response itself. -/
theorem error_handler_terminal (err : HttpError) :
    (errorHandler err).nextCalled = false ∧
    (errorHandler err).responses.length = 1 := ⟨rfl, rfl⟩

/-- C9: any truthy `statusCode` is passed through to the response status
unchanged, even when it is not a valid HTTP status code. -/
theorem error_handler_status_passthrough (err : HttpError) (v : Int)
    (hv : err.statusCode = some v) (hnz : v ≠ 0) :
    ∀ r ∈ (errorHandler err).responses, r.status = v := by
  intro r hr
  simp [errorHandler] at hr
  subst hr
  simp [defaultedStatus, hv, hnz]

/-- Witness for C9: the out-of-range code 999 and a negative code are both
passed through unchanged. -/
theorem error_handler_status_passthrough_witness :
    (∀ r ∈ (errorHandler
        { statusCode := some 999, name := "E", message := "m" }).responses,
      r.status = 999) ∧
    (∀ r ∈ (errorHandler
        { statusCode := some (-7), name := "E", message := "m" }).responses,
      r.status = -7) :=
  ⟨error_handler_status_passthrough _ 999 rfl (by decide),
   error_handler_status_passthrough _ (-7) rfl (by decide)⟩

/-- C10: the root route is deterministic and ignores its request argument:
any two GET requests to "/" receive identical responses, regardless of
headers, query string or body. -/
theorem root_route_deterministic (r1 r2 : Request)
    (h1m : r1.method = "GET") (h1p : r1.path = "/")
    (h2m : r2.method = "GET") (h2p : r2.path = "/") :
    appHandle r1 = appHandle r2 := by
  simp [appHandle, rootRoute, h1m, h1p, h2m, h2p]

/-- Witness for C10: two GET / requests differing in headers, query and body
produce the same response. -/
theorem root_route_deterministic_witness :
    appHandle { method := "GET", path := "/"
              , headers := [("x-user", "alice")], query := "a=1"
              , body := "payload" } =
    appHandle { method := "GET", path := "/", headers := [], query := ""
              , body := "" } :=
  root_route_deterministic _ _ rfl rfl rfl rfl
